import Mathlib

/-!
Verification of `generate_data.py`, a synthetic survey-data generator for a
student satisfaction / loyalty study.

The script draws, per respondent, five independent latent factor values
(`np.random.normal(mu, sd)`), a satisfaction latent value (weighted sum of the
five plus noise), a loyalty latent value (0.8 × satisfaction plus noise), and
then, for each of 28 items, an observed score = latent value + item noise,
rounded with Python's built-in `round` (which rounds halves to the nearest
even integer) and clamped into `[SCALE_MIN, SCALE_MAX]`.

The embedding models every call to the random source as an explicit input: a
`Draws` record holds, for one respondent, the values returned by each
`np.random.normal` call, and a whole run is a function `Nat → Draws` giving
the draws of each loop iteration.  Real numbers are modelled by `ℚ`.
-/

namespace GenerateData

/-- `NUM_RESPONDENTS = 150` from the configuration block. -/
def NUM_RESPONDENTS : Nat := 150

/-- `SCALE_MIN = 1` from the configuration block. -/
def SCALE_MIN : Int := 1

/-- `SCALE_MAX = 5` from the configuration block. -/
def SCALE_MAX : Int := 5

/-- The `constructs` dict: construct code ↦ its four item identifiers,
in the declared (insertion) order CSVC, GV, CT, NV, HP, HL, TT. -/
def constructs : List (String × List String) :=
  [ ("CSVC", ["CSVC1", "CSVC2", "CSVC3", "CSVC4"]),
    ("GV",   ["GV1",   "GV2",   "GV3",   "GV4"]),
    ("CT",   ["CT1",   "CT2",   "CT3",   "CT4"]),
    ("NV",   ["NV1",   "NV2",   "NV3",   "NV4"]),
    ("HP",   ["HP1",   "HP2",   "HP3",   "HP4"]),
    ("HL",   ["HL1",   "HL2",   "HL3",   "HL4"]),
    ("TT",   ["TT1",   "TT2",   "TT3",   "TT4"]) ]

/-- The `header` list: the item lists of all constructs concatenated in
declared construct order (`for code, items in constructs.items(): header.extend(items)`). -/
def header : List String := (constructs.map Prod.snd).flatten

/-- The outputs of the per-respondent random draws: the five independent
latent factor values returned by `np.random.normal(mu_*, sd_*)`, the
satisfaction noise `np.random.normal(0, 0.5)`, the loyalty noise
`np.random.normal(0, 0.4)`, and the 28 per-item noises
`np.random.normal(0, 0.6)` indexed by position in the row. -/
structure Draws where
  f_CSVC : ℚ
  f_GV : ℚ
  f_CT : ℚ
  f_NV : ℚ
  f_HP : ℚ
  eps_HL : ℚ
  eps_TT : ℚ
  itemNoise : Nat → ℚ

/-- The seven latent factor values of one respondent (the `factors` dict). -/
structure Factors where
  f_CSVC : ℚ
  f_GV : ℚ
  f_CT : ℚ
  f_NV : ℚ
  f_HP : ℚ
  f_HL : ℚ
  f_TT : ℚ

/-- Lines 45–57 of the script: the five independent factors are the raw
draws, `f_HL = (0.3*f_GV + 0.3*f_CT + 0.2*f_CSVC + 0.1*f_NV + 0.1*f_HP) + eps`,
`f_TT = (0.8 * f_HL) + eps`. -/
def computeFactors (d : Draws) : Factors :=
  let f_HL : ℚ :=
    (0.3 * d.f_GV + 0.3 * d.f_CT + 0.2 * d.f_CSVC + 0.1 * d.f_NV + 0.1 * d.f_HP) + d.eps_HL
  let f_TT : ℚ := (0.8 * f_HL) + d.eps_TT
  { f_CSVC := d.f_CSVC, f_GV := d.f_GV, f_CT := d.f_CT, f_NV := d.f_NV,
    f_HP := d.f_HP, f_HL := f_HL, f_TT := f_TT }

/-- The dict lookup `factors[code]`.  Every code used by the item loop is a
key of the dict; the default value is never reached. -/
def factorOf (fs : Factors) : String → ℚ
  | "CSVC" => fs.f_CSVC
  | "GV" => fs.f_GV
  | "CT" => fs.f_CT
  | "NV" => fs.f_NV
  | "HP" => fs.f_HP
  | "HL" => fs.f_HL
  | "TT" => fs.f_TT
  | _ => 0

/-- Python's built-in `round` on an exact value (also what `numpy` uses):
round to the nearest integer, with halves rounded to the even neighbour. -/
def pyRound (q : ℚ) : Int :=
  if q - ⌊q⌋ < 1 / 2 then ⌊q⌋
  else if 1 / 2 < q - ⌊q⌋ then ⌊q⌋ + 1
  else if ⌊q⌋ % 2 = 0 then ⌊q⌋ else ⌊q⌋ + 1

/-- Lines 74–79 of the script, one item:
`val = base_val + noise; val = round(val); val = max(SCALE_MIN, min(SCALE_MAX, val))`. -/
def itemScore (base_val noise : ℚ) : Int :=
  max SCALE_MIN (min SCALE_MAX (pyRound (base_val + noise)))

/-- The inner item loop (lines 70–79): for each construct in declared order,
for each of its items, append the item score, consuming one item-noise draw
per item; `n` is the index of the next noise draw. -/
def genRowAux (fs : Factors) (noise : Nat → ℚ) :
    List (String × List String) → Nat → List Int
  | [], _ => []
  | (code, items) :: rest, n =>
      (List.range items.length).map (fun j => itemScore (factorOf fs code) (noise (n + j)))
        ++ genRowAux fs noise rest (n + items.length)

/-- One loop iteration (lines 41–81): the row of 28 scores of one respondent,
as a function of that iteration's draws. -/
def genRow (d : Draws) : List Int :=
  genRowAux (computeFactors d) d.itemNoise constructs 0

/-- The `data` list after the loop: one generated row per respondent,
row `i` produced from iteration `i`'s draws. -/
def dataRows (ds : Nat → Draws) : List (List Int) :=
  (List.range NUM_RESPONDENTS).map (fun i => genRow (ds i))

/-- The emitted CSV content as a list of records: `writer.writerow(header)`
then `writer.writerows(data)` (integers rendered in decimal). -/
def csvLines (ds : Nat → Draws) : List (List String) :=
  header :: (dataRows ds).map (fun r => r.map toString)

/-- Line 89: `print("Generated sample_data_large.csv with 150 rows and 28 columns.")`. -/
def confirmationMessage : String :=
  "Generated sample_data_large.csv with 150 rows and 28 columns."

/-- The rounding the claim text describes (halves rounded away from the lower
integer, i.e. `⌊x + 1/2⌋`, which is Mathlib's `round`), followed by the same
clamp — the spec-side pipeline, for comparison with `itemScore`. -/
def specRoundClamp (q : ℚ) : Int :=
  max SCALE_MIN (min SCALE_MAX (round q))

/-- All-zero draws, a convenient concrete input. -/
def d0 : Draws :=
  { f_CSVC := 0, f_GV := 0, f_CT := 0, f_NV := 0, f_HP := 0,
    eps_HL := 0, eps_TT := 0, itemNoise := fun _ => 0 }

example : itemScore 0 0 = 1 := by
  norm_num [itemScore, pyRound, SCALE_MIN, SCALE_MAX]
example : itemScore (5/2) 0 = 2 := by
  norm_num [itemScore, pyRound, SCALE_MIN, SCALE_MAX]
example : specRoundClamp (5/2) = 3 := by
  norm_num [specRoundClamp, SCALE_MIN, SCALE_MAX, round_eq]
example : header.length = 28 := by decide

/-! ### Helper lemmas about the rounding and clamping pipeline -/

theorem pyRound_lb (q : ℚ) : ⌊q⌋ ≤ pyRound q := by
  unfold pyRound
  split_ifs <;> omega

theorem pyRound_ub (q : ℚ) : pyRound q ≤ ⌊q⌋ + 1 := by
  unfold pyRound
  split_ifs <;> omega

theorem pyRound_mono {a b : ℚ} (h : a ≤ b) : pyRound a ≤ pyRound b := by
  rcases lt_or_le ⌊a⌋ ⌊b⌋ with hf | hf
  · have h1 := pyRound_ub a
    have h2 := pyRound_lb b
    omega
  · have hfe : ⌊a⌋ = ⌊b⌋ := le_antisymm (Int.floor_le_floor h) hf
    unfold pyRound
    rw [← hfe]
    split_ifs <;> first | omega | linarith

theorem pyRound_nearest (q : ℚ) :
    |(pyRound q : ℚ) - q| < 1 / 2 ∨
      (|(pyRound q : ℚ) - q| = 1 / 2 ∧ Even (pyRound q)) := by
  have h0 : (⌊q⌋ : ℚ) ≤ q := Int.floor_le q
  have h1 : q < ⌊q⌋ + 1 := Int.lt_floor_add_one q
  unfold pyRound
  split_ifs with hA hB hC
  · left
    rw [abs_sub_comm, abs_of_nonneg (by linarith)]
    linarith
  · left
    rw [abs_of_nonneg (by push_cast; linarith)]
    push_cast
    linarith
  · right
    refine ⟨?_, Int.even_iff.mpr hC⟩
    rw [abs_sub_comm, abs_of_nonneg (by linarith)]
    linarith
  · right
    refine ⟨?_, Int.even_iff.mpr (by omega)⟩
    rw [abs_of_nonneg (by push_cast; linarith)]
    push_cast
    linarith

theorem itemScore_bounds (b n : ℚ) :
    SCALE_MIN ≤ itemScore b n ∧ itemScore b n ≤ SCALE_MAX := by
  unfold itemScore
  refine ⟨le_max_left _ _, max_le ?_ (min_le_left _ _)⟩
  norm_num [SCALE_MIN, SCALE_MAX]

theorem genRowAux_bounds (fs : Factors) (noise : Nat → ℚ) :
    ∀ (cs : List (String × List String)) (n : Nat) (v : Int),
      v ∈ genRowAux fs noise cs n → SCALE_MIN ≤ v ∧ v ≤ SCALE_MAX := by
  intro cs
  induction cs with
  | nil => intro n v hv; simp [genRowAux] at hv
  | cons hd tl ih =>
      intro n v hv
      obtain ⟨code, items⟩ := hd
      simp only [genRowAux, List.mem_append, List.mem_map] at hv
      rcases hv with ⟨j, _, rfl⟩ | hv
      · exact itemScore_bounds _ _
      · exact ih _ v hv

theorem genRow_d0 : genRow d0 = List.replicate 28 1 := by
  simp [genRow, genRowAux, constructs, factorOf, computeFactors, d0]
  norm_num [itemScore, pyRound, SCALE_MIN, SCALE_MAX]

theorem dataRows_length (ds : Nat → Draws) :
    (dataRows ds).length = NUM_RESPONDENTS := by
  simp [dataRows]

/-- The constant run of draws with every draw equal to zero. -/
def ds0 : Nat → Draws := fun _ => d0

/-! ### Claim theorems -/

/-- C1: for every respondent row of the output and every assignment of
latent/noise draws (arbitrarily extreme included), each of the 28 emitted
item scores lies in the closed range `[SCALE_MIN, SCALE_MAX] = [1, 5]`. -/
theorem scores_in_scale_range (ds : Nat → Draws) (r : List Int)
    (hr : r ∈ dataRows ds) (v : Int) (hv : v ∈ r) :
    SCALE_MIN ≤ v ∧ v ≤ SCALE_MAX := by
  simp only [dataRows, List.mem_map] at hr
  obtain ⟨i, -, rfl⟩ := hr
  unfold genRow at hv
  exact genRowAux_bounds _ _ _ _ v hv

/-- Witness for C1 at the all-zero draws: the score `1` appears in the first
generated row and is within bounds. -/
theorem scores_in_scale_range_witness :
    SCALE_MIN ≤ (1 : Int) ∧ (1 : Int) ≤ SCALE_MAX :=
  scores_in_scale_range ds0 (genRow d0)
    (by
      show genRow d0 ∈ (List.range NUM_RESPONDENTS).map (fun i => genRow (ds0 i))
      exact List.mem_map.mpr ⟨0, by simp [NUM_RESPONDENTS], rfl⟩)
    1 (by rw [genRow_d0]; simp)

/-- C2 counterexample: at latent value `5/2` with zero item noise, the code
(Python `round`, halves to even) yields `2`, while rounding halves away from
the lower integer (`specRoundClamp`, built on `⌊x + 1/2⌋`) yields `3`. -/
theorem item_score_not_half_away_from_lower :
    itemScore (5 / 2) 0 ≠ specRoundClamp (5 / 2 + 0) := by
  norm_num [itemScore, specRoundClamp, pyRound, SCALE_MIN, SCALE_MAX, round_eq]

/-- C2 (amended): the observed item score is the latent value plus the item
noise, rounded to the nearest integer with halves rounded to the even
neighbour (Python's `round`), then clamped into `[SCALE_MIN, SCALE_MAX]`,
in that order. -/
theorem item_score_round_even_then_clamp (b n : ℚ) :
    itemScore b n = max SCALE_MIN (min SCALE_MAX (pyRound (b + n))) ∧
      (|(pyRound (b + n) : ℚ) - (b + n)| < 1 / 2 ∨
        (|(pyRound (b + n) : ℚ) - (b + n)| = 1 / 2 ∧ Even (pyRound (b + n)))) :=
  ⟨rfl, pyRound_nearest (b + n)⟩

/-- C3: the satisfaction latent value is
`0.3*f_GV + 0.3*f_CT + 0.2*f_CSVC + 0.1*f_NV + 0.1*f_HP + eps`. -/
theorem satisfaction_latent_formula (d : Draws) :
    (computeFactors d).f_HL =
      3 / 10 * d.f_GV + 3 / 10 * d.f_CT + 2 / 10 * d.f_CSVC
        + 1 / 10 * d.f_NV + 1 / 10 * d.f_HP + d.eps_HL := by
  simp only [computeFactors]
  norm_num

/-- C4: the loyalty latent value is `0.8 * f_HL + eps`. -/
theorem loyalty_latent_formula (d : Draws) :
    (computeFactors d).f_TT = 8 / 10 * (computeFactors d).f_HL + d.eps_TT := by
  simp only [computeFactors]
  norm_num

/-- C5: for every sequence of random draws the emitted dataset has exactly
`NUM_RESPONDENTS = 150` data rows plus exactly one header row. -/
theorem output_row_counts (ds : Nat → Draws) :
    (dataRows ds).length = NUM_RESPONDENTS ∧
      (csvLines ds).length = NUM_RESPONDENTS + 1 := by
  refine ⟨dataRows_length ds, ?_⟩
  simp [csvLines, dataRows]

/-- C6: the header has exactly 28 entries, in the order obtained by
concatenating each construct's 4-item list in declared construct order
(CSVC, GV, CT, NV, HP, HL, TT), and every data row's 28 values are emitted
in that same construct/item order. -/
theorem header_and_row_order (d : Draws) :
    header = (constructs.map Prod.snd).flatten ∧
    header = ["CSVC1", "CSVC2", "CSVC3", "CSVC4", "GV1", "GV2", "GV3", "GV4",
      "CT1", "CT2", "CT3", "CT4", "NV1", "NV2", "NV3", "NV4",
      "HP1", "HP2", "HP3", "HP4", "HL1", "HL2", "HL3", "HL4",
      "TT1", "TT2", "TT3", "TT4"] ∧
    header.length = 28 ∧
    genRow d =
      [itemScore (computeFactors d).f_CSVC (d.itemNoise 0),
       itemScore (computeFactors d).f_CSVC (d.itemNoise 1),
       itemScore (computeFactors d).f_CSVC (d.itemNoise 2),
       itemScore (computeFactors d).f_CSVC (d.itemNoise 3),
       itemScore (computeFactors d).f_GV (d.itemNoise 4),
       itemScore (computeFactors d).f_GV (d.itemNoise 5),
       itemScore (computeFactors d).f_GV (d.itemNoise 6),
       itemScore (computeFactors d).f_GV (d.itemNoise 7),
       itemScore (computeFactors d).f_CT (d.itemNoise 8),
       itemScore (computeFactors d).f_CT (d.itemNoise 9),
       itemScore (computeFactors d).f_CT (d.itemNoise 10),
       itemScore (computeFactors d).f_CT (d.itemNoise 11),
       itemScore (computeFactors d).f_NV (d.itemNoise 12),
       itemScore (computeFactors d).f_NV (d.itemNoise 13),
       itemScore (computeFactors d).f_NV (d.itemNoise 14),
       itemScore (computeFactors d).f_NV (d.itemNoise 15),
       itemScore (computeFactors d).f_HP (d.itemNoise 16),
       itemScore (computeFactors d).f_HP (d.itemNoise 17),
       itemScore (computeFactors d).f_HP (d.itemNoise 18),
       itemScore (computeFactors d).f_HP (d.itemNoise 19),
       itemScore (computeFactors d).f_HL (d.itemNoise 20),
       itemScore (computeFactors d).f_HL (d.itemNoise 21),
       itemScore (computeFactors d).f_HL (d.itemNoise 22),
       itemScore (computeFactors d).f_HL (d.itemNoise 23),
       itemScore (computeFactors d).f_TT (d.itemNoise 24),
       itemScore (computeFactors d).f_TT (d.itemNoise 25),
       itemScore (computeFactors d).f_TT (d.itemNoise 26),
       itemScore (computeFactors d).f_TT (d.itemNoise 27)] := by
  refine ⟨rfl, by decide, by decide, ?_⟩
  simp [genRow, genRowAux, constructs, factorOf, List.range_succ]

/-- C7: generation is deterministic in its random source: row `i` of the
output depends only on iteration `i`'s draws, and two runs with the same
draw sequence produce identical output (header and all rows, in order). -/
theorem deterministic_generation (ds1 ds2 : Nat → Draws) (i : Nat)
    (hi : ds1 i = ds2 i) :
    (dataRows ds1).get? i = (dataRows ds2).get? i ∧
      ((∀ j, ds1 j = ds2 j) → csvLines ds1 = csvLines ds2) := by
  constructor
  · by_cases h : i < NUM_RESPONDENTS
    · simp [dataRows, List.getElem?_range h, hi]
    · have hn : (List.range NUM_RESPONDENTS)[i]? = none :=
        List.getElem?_eq_none (by simpa using Nat.le_of_not_lt h)
      simp [dataRows, hn]
  · intro hall
    have : ds1 = ds2 := funext hall
    rw [this]

/-- Witness for C7 at the constant all-zero draw sequence. -/
theorem deterministic_generation_witness :
    (dataRows ds0).get? 0 = (dataRows ds0).get? 0 ∧
      ((∀ j, ds0 j = ds0 j) → csvLines ds0 = csvLines ds0) :=
  deterministic_generation ds0 ds0 0 rfl

/-- C8: the confirmation line's stated row count (150) and column count (28)
equal the actual number of data rows and the actual number of header
columns of the emitted file, for every draw sequence. -/
theorem confirmation_line_counts (ds : Nat → Draws) :
    confirmationMessage =
      "Generated sample_data_large.csv with " ++ toString (dataRows ds).length
        ++ " rows and " ++ toString header.length ++ " columns." := by
  rw [dataRows_length ds]
  rfl

/-- C9: for a fixed item-noise value, the emitted item score is monotone
non-decreasing in the construct's latent value: the round-then-clamp
pipeline never inverts order. -/
theorem item_score_monotone (a b n : ℚ) (h : a ≤ b) :
    itemScore a n ≤ itemScore b n := by
  unfold itemScore
  exact max_le_max (le_refl _)
    (min_le_min (le_refl _) (pyRound_mono (add_le_add_right h n)))

/-- Witness for C9 at latent values `0 ≤ 1` with zero noise. -/
theorem item_score_monotone_witness :
    (0 : ℚ) ≤ 1 ∧ itemScore 0 0 ≤ itemScore 1 0 :=
  ⟨by norm_num, item_score_monotone 0 1 0 (by norm_num)⟩

/-- The respondent draws with every independent latent value equal to 2 and
zero noise everywhere. -/
def dConst : Draws :=
  { f_CSVC := 2, f_GV := 2, f_CT := 2, f_NV := 2, f_HP := 2,
    eps_HL := 0, eps_TT := 0, itemNoise := fun _ => 0 }

/-- C10: over exact rational arithmetic the satisfaction weights sum to 1,
so with all five independent latent values equal to `v` and zero
satisfaction noise, the satisfaction latent value is exactly `v`. -/
theorem weights_sum_one_average_identity (v : ℚ) (d : Draws)
    (h1 : d.f_GV = v) (h2 : d.f_CT = v) (h3 : d.f_CSVC = v)
    (h4 : d.f_NV = v) (h5 : d.f_HP = v) (h6 : d.eps_HL = 0) :
    (0.3 : ℚ) + 0.3 + 0.2 + 0.1 + 0.1 = 1 ∧ (computeFactors d).f_HL = v := by
  refine ⟨by norm_num, ?_⟩
  simp only [computeFactors, h1, h2, h3, h4, h5, h6]
  ring_nf

/-- Witness for C10 at the constant draws `dConst` with `v = 2`. -/
theorem weights_sum_one_average_identity_witness :
    (0.3 : ℚ) + 0.3 + 0.2 + 0.1 + 0.1 = 1 ∧ (computeFactors dConst).f_HL = 2 :=
  weights_sum_one_average_identity 2 dConst rfl rfl rfl rfl rfl rfl

end GenerateData
